import Mathlib

/-!
Shallow embedding of the integration-orchestration frontend of
alexxzk/smart-stock-ordering, together with proofs about its claims.

The embedded code lives in
`src/frontend/src/components/supplier-api-integrations/SupplierAPIIntegrations.tsx`,
`src/frontend/src/components/sales/SalesAutoDeduction.tsx` and the setup
wizard component (`src/unnamed/part_002`).  JavaScript numbers that are
only ever compared or summed are modelled as `Int`; JS objects built as
literal key/value records are modelled as association lists of
`String × JsonValue` so that the presence or absence of a key is a
provable fact.
-/

namespace SupplierAPI

/-- Line item of an order, mirroring the `OrderItem` interface. -/
structure OrderItem where
  product_id : String
  name : String
  quantity : Int
  unit : String
  unit_price : Int
  notes : String
deriving DecidableEq, Repr

/-- The `orderData` component state (the order request being edited). -/
structure OrderData where
  supplier_id : String
  supplier_name : String
  supplier_email : String
  items : List OrderItem
  delivery_address : String
  delivery_date : String
  contact_person : String
  contact_phone : String
  contact_email : String
  notes : String
  urgent : Bool
deriving DecidableEq, Repr

/-- The `orderType` state: which channel the order is routed through. -/
inductive OrderType where
  | api
  | pdf
  | email
deriving DecidableEq, Repr

/-- A JSON-ish value placed into a request body field. -/
inductive JsonValue where
  | str (s : String)
  | items (xs : List OrderItem)
  | bool (b : Bool)
deriving DecidableEq, Repr

/-- The endpoint chosen by `placeOrder` for each channel
(lines 258-298 of SupplierAPIIntegrations.tsx). -/
def placeOrderEndpoint : OrderType → String
  | .api => "/order"
  | .pdf => "/order-sheet/pdf"
  | .email => "/order-sheet/email"

/-- The `requestData` object built by `placeOrder` for each channel,
field by field in source order (lines 258-298). -/
def placeOrderRequestData : OrderType → OrderData → List (String × JsonValue)
  | .api, od =>
      [("supplier_id", .str od.supplier_id),
       ("items", .items od.items),
       ("delivery_address", .str od.delivery_address),
       ("delivery_date", .str od.delivery_date),
       ("contact_person", .str od.contact_person),
       ("contact_phone", .str od.contact_phone),
       ("contact_email", .str od.contact_email),
       ("notes", .str od.notes),
       ("urgent", .bool od.urgent)]
  | .pdf, od =>
      [("supplier_name", .str od.supplier_name),
       ("items", .items od.items),
       ("delivery_address", .str od.delivery_address),
       ("delivery_date", .str od.delivery_date),
       ("contact_person", .str od.contact_person),
       ("contact_phone", .str od.contact_phone),
       ("contact_email", .str od.contact_email),
       ("notes", .str od.notes),
       ("urgent", .bool od.urgent)]
  | .email, od =>
      [("supplier_name", .str od.supplier_name),
       ("supplier_email", .str od.supplier_email),
       ("items", .items od.items),
       ("delivery_address", .str od.delivery_address),
       ("delivery_date", .str od.delivery_date),
       ("contact_person", .str od.contact_person),
       ("contact_phone", .str od.contact_phone),
       ("contact_email", .str od.contact_email),
       ("notes", .str od.notes),
       ("urgent", .bool od.urgent)]

/-- Key lookup in a request body. -/
def bodyGet (k : String) (body : List (String × JsonValue)) : Option JsonValue :=
  (body.find? (fun p => p.1 == k)).map Prod.snd

/-- Key presence in a request body. -/
def bodyHasKey (k : String) (body : List (String × JsonValue)) : Bool :=
  body.any (fun p => p.1 == k)

/-- The `disabled` condition of the Place Order dialog button
(line 985): `loading || orderData.items.length === 0`. -/
def placeOrderDisabled (loading : Bool) (od : OrderData) : Bool :=
  loading || od.items.length == 0

/-- Static supplier descriptor, mirroring the `Supplier` interface. -/
structure Supplier where
  id : String
  name : String
  description : String
  integration_type : String
  features : List String
  categories : List String
  minimum_order : Int
  delivery_lead_time : Int
  required_config : List String
deriving DecidableEq, Repr

/-- Order total: sum over line items of quantity times unit price.
The frontend never computes this; it is the quantity referenced by the
spec's "total ≥ supplier minimum order" condition. -/
def orderTotal (od : OrderData) : Int :=
  (od.items.map (fun it => it.quantity * it.unit_price)).sum

/-- A concrete order used to exhibit counterexamples: one line item with
quantity 0 and price 0, against a supplier whose minimum order is 50. -/
def zeroQtyOrder : OrderData :=
  { supplier_id := "sysco"
    supplier_name := "Sysco"
    supplier_email := ""
    items := [{ product_id := "p1", name := "Coffee", quantity := 0,
                unit := "kg", unit_price := 0, notes := "" }]
    delivery_address := "1 Main St"
    delivery_date := "2025-01-01"
    contact_person := "Pat"
    contact_phone := "555"
    contact_email := "pat@example.com"
    notes := ""
    urgent := false }

/-- A supplier with a positive minimum order amount. -/
def minOrderSupplier : Supplier :=
  { id := "sysco", name := "Sysco", description := "",
    integration_type := "api", features := [], categories := [],
    minimum_order := 50, delivery_lead_time := 2,
    required_config := ["api_key"] }

end SupplierAPI

open SupplierAPI

/-- C1 counterexample: an order whose single line item has quantity 0 and
whose total (0) is below the supplier minimum (50) is nevertheless accepted
for submission — the Place Order button is enabled, since the gate only
checks that the item list is non-empty. -/
theorem C1_counterexample_zero_quantity_accepted :
    placeOrderDisabled false zeroQtyOrder = false ∧
    ¬ ((∀ it ∈ zeroQtyOrder.items, 0 < it.quantity) ∧
        minOrderSupplier.minimum_order ≤ orderTotal zeroQtyOrder) := by
  decide

/-- C1 (amended): an order request is accepted for submission exactly when
no request is in flight and its item list is non-empty; line-item
quantities and the order total against the supplier minimum are not
validated by the submission gate. -/
theorem C1_placeOrder_gate_nonempty_items_only
    (loading : Bool) (od : OrderData) :
    placeOrderDisabled loading od = false ↔
      (loading = false ∧ od.items ≠ []) := by
  cases loading <;>
    simp [placeOrderDisabled, List.length_eq_zero]

/-- C1 witness: at `loading = false` and the concrete order above, the gate
evaluates to enabled and the item list is non-empty. -/
theorem C1_witness :
    placeOrderDisabled false zeroQtyOrder = false ∧ zeroQtyOrder.items ≠ [] :=
  ⟨(C1_placeOrder_gate_nonempty_items_only false zeroQtyOrder).mpr
      ⟨rfl, by decide⟩,
   by decide⟩

/-- C2: order placement is routed by channel — channel api posts to /order
with a supplier_id field, channel pdf posts to /order-sheet/pdf with a
supplier_name field, channel email posts to /order-sheet/email and is the
only channel whose body carries supplier_email; all three channels carry
the same items, delivery, contact, notes and urgency fields. -/
theorem C2_placeOrder_channel_routing (od : OrderData) :
    (placeOrderEndpoint .api = "/order" ∧
      bodyGet "supplier_id" (placeOrderRequestData .api od) =
        some (.str od.supplier_id)) ∧
    (placeOrderEndpoint .pdf = "/order-sheet/pdf" ∧
      bodyGet "supplier_name" (placeOrderRequestData .pdf od) =
        some (.str od.supplier_name)) ∧
    (placeOrderEndpoint .email = "/order-sheet/email" ∧
      bodyGet "supplier_email" (placeOrderRequestData .email od) =
        some (.str od.supplier_email)) ∧
    (∀ t : OrderType,
      bodyHasKey "supplier_email" (placeOrderRequestData t od) = true ↔
        t = .email) ∧
    (∀ t : OrderType,
      bodyGet "items" (placeOrderRequestData t od) = some (.items od.items) ∧
      bodyGet "delivery_address" (placeOrderRequestData t od) =
        some (.str od.delivery_address) ∧
      bodyGet "delivery_date" (placeOrderRequestData t od) =
        some (.str od.delivery_date) ∧
      bodyGet "contact_person" (placeOrderRequestData t od) =
        some (.str od.contact_person) ∧
      bodyGet "contact_phone" (placeOrderRequestData t od) =
        some (.str od.contact_phone) ∧
      bodyGet "contact_email" (placeOrderRequestData t od) =
        some (.str od.contact_email) ∧
      bodyGet "notes" (placeOrderRequestData t od) = some (.str od.notes) ∧
      bodyGet "urgent" (placeOrderRequestData t od) =
        some (.bool od.urgent)) := by
  refine ⟨⟨rfl, rfl⟩, ⟨rfl, rfl⟩, ⟨rfl, rfl⟩, ?_, ?_⟩
  · intro t
    cases t <;> simp [bodyHasKey, placeOrderRequestData]
  · intro t
    cases t <;>
      exact ⟨rfl, rfl, rfl, rfl, rfl, rfl, rfl, rfl⟩

/-- C5 counterexample: at a concrete order, no channel's request body
contains an order id — the claim that every channel's body includes a
caller-generated order id fails. -/
theorem C5_counterexample_no_order_id_in_body :
    bodyHasKey "order_id" (placeOrderRequestData .api zeroQtyOrder) = false ∧
    bodyHasKey "order_id" (placeOrderRequestData .pdf zeroQtyOrder) = false ∧
    bodyHasKey "order_id" (placeOrderRequestData .email zeroQtyOrder) = false := by
  decide

/-- C5 (amended): for every channel, the request body built in placeOrder
contains no order id field at all; the order id is assigned server-side
(the success handler reads it from the response). -/
theorem C5_placeOrder_body_has_no_order_id
    (t : OrderType) (od : OrderData) :
    bodyHasKey "order_id" (placeOrderRequestData t od) = false := by
  cases t <;> rfl

namespace SupplierAPI

/-- The `configData` component state of the configuration form. -/
structure ConfigData where
  api_key : String
  location_id : String
  account_number : String
  restaurant_id : String
deriving DecidableEq, Repr

/-- The value of a named configuration field inside `configData`; any
name outside the four form fields is never populated by the form. -/
def configFieldValue (cd : ConfigData) : String → String
  | "api_key" => cd.api_key
  | "location_id" => cd.location_id
  | "account_number" => cd.account_number
  | "restaurant_id" => cd.restaurant_id
  | _ => ""

/-- The `disabled` condition of the Configure button in the configuration
dialog (line 806): `!configData.api_key || loading`. -/
def configureDisabledDialog (loading : Bool) (cd : ConfigData) : Bool :=
  (cd.api_key == "") || loading

/-- The `disabled` condition of the Configure Integration button on the
Configuration tab (line 744):
`!configSupplier || !configData.api_key || loading`. -/
def configureDisabledTab (loading : Bool) (configSupplier : String)
    (cd : ConfigData) : Bool :=
  (configSupplier == "") || (cd.api_key == "") || loading

/-- Result of the configure operation. -/
inductive ConfigResult where
  | ok
  | configurationError
deriving DecidableEq, Repr

/-- Connection status lifecycle of a supplier connection. -/
inductive ConnStatus where
  | unconfigured
  | configured
  | verified
  | error
deriving DecidableEq, Repr

/-- Modelled from the spec: the backend `/configure` endpoint is not under
src/ (the frontend `configureSupplier` only posts `configData` and surfaces
`errorData.detail`).  Per spec §4.2, `configure` validates field
completeness against `SupplierDefinition.required_config`; on success the
status becomes `configured`, and omitting any required field yields
`ConfigurationError` with the status left as it was. -/
def configureModel (s : Supplier) (cd : ConfigData) (st : ConnStatus) :
    ConfigResult × ConnStatus :=
  if s.required_config.all (fun f => configFieldValue cd f != "") then
    (.ok, .configured)
  else
    (.configurationError, st)

/-- The bidfood supplier descriptor: an API supplier whose required
configuration is an API key plus a location id (the form shows the
Location ID field exactly for bidfood). -/
def bidfoodSupplier : Supplier :=
  { id := "bidfood", name := "Bidfood", description := "",
    integration_type := "api", features := [], categories := [],
    minimum_order := 100, delivery_lead_time := 2,
    required_config := ["api_key", "location_id"] }

/-- A submitted configuration that has an API key but omits the
location id. -/
def missingLocationConfig : ConfigData :=
  { api_key := "k-123", location_id := "", account_number := "",
    restaurant_id := "" }

end SupplierAPI

/-- C3: configuring a supplier connection succeeds exactly when every
field named in its required_config list is populated; omitting any
required field yields ConfigurationError and leaves the status unchanged
(in particular an unconfigured connection stays unconfigured), and when
the API key itself is missing the frontend Configure button is disabled,
so the operation is not even issued. -/
theorem C3_configure_requires_all_required_fields
    (s : Supplier) (cd : ConfigData) (st : ConnStatus) :
    ((configureModel s cd st).1 = .ok ↔
      ∀ f ∈ s.required_config, configFieldValue cd f ≠ "") ∧
    (∀ f ∈ s.required_config, configFieldValue cd f = "" →
      (configureModel s cd st).1 = .configurationError ∧
      (configureModel s cd st).2 = st) ∧
    (cd.api_key = "" → configureDisabledDialog false cd = true) := by
  refine ⟨?_, ?_, ?_⟩
  · by_cases h : s.required_config.all (fun f => configFieldValue cd f != "")
    · simp only [configureModel, h, if_true]
      simp only [List.all_eq_true, bne_iff_ne, ne_eq] at h
      simpa using h
    · simp only [configureModel, h, if_false]
      simp only [List.all_eq_true, bne_iff_ne, ne_eq] at h
      push_neg at h
      constructor
      · intro hok
        cases hok
      · intro hall
        obtain ⟨f, hf, hempty⟩ := h
        exact absurd hempty (hall f hf)
  · intro f hf hempty
    have hall : s.required_config.all (fun f => configFieldValue cd f != "") = false := by
      rw [Bool.eq_false_iff]
      intro hall
      rw [List.all_eq_true] at hall
      have := hall f hf
      rw [bne_iff_ne] at this
      exact this hempty
    simp [configureModel, hall]
  · intro hkey
    simp [configureDisabledDialog, hkey]

/-- C3 witness: for bidfood (required fields api_key and location_id) and
a submitted configuration missing the location id, configure yields
ConfigurationError and an unconfigured connection stays unconfigured. -/
theorem C3_witness :
    (configureModel bidfoodSupplier missingLocationConfig .unconfigured).1 =
      .configurationError ∧
    (configureModel bidfoodSupplier missingLocationConfig .unconfigured).2 =
      .unconfigured :=
  (C3_configure_requires_all_required_fields bidfoodSupplier
      missingLocationConfig .unconfigured).2.1
    "location_id" (by decide) (by decide)

namespace SupplierAPI

/-- Cached product entry, mirroring the `Product` interface. -/
structure Product where
  product_id : String
  name : String
  description : String
  price : Int
  unit : String
  category : String
  in_stock : Bool
  min_order_qty : Int
  lead_time_days : Int
  last_updated : String
deriving DecidableEq, Repr

/-- The component state touched by `getProducts`: the loaded catalog
entries, the selected supplier, and the error banner. -/
structure CatalogState where
  products : List Product
  selectedSupplier : String
  error : Option String
deriving DecidableEq, Repr

/-- Outcome of the fetch inside `getProducts`: an OK response carrying
data, a non-OK response, or a thrown fetch error. -/
inductive FetchOutcome where
  | ok (data : List Product)
  | httpError
  | thrown
deriving DecidableEq, Repr

/-- The state transition of `getProducts` (lines 222-250): on an OK
response it stores the fetched products and selects the supplier; on a
non-OK response or a thrown error it only sets the error message. -/
def getProducts (st : CatalogState) (supplierId : String)
    (o : FetchOutcome) : CatalogState :=
  match o with
  | .ok data => { st with products := data, selectedSupplier := supplierId }
  | .httpError => { st with error := some "Failed to load products" }
  | .thrown => { st with error := some "Error loading products" }

/-- A concrete catalog state holding one previously loaded entry. -/
def loadedCatalogState : CatalogState :=
  { products := [{ product_id := "p9", name := "Beans", description := "",
                   price := 12, unit := "kg", category := "dry",
                   in_stock := true, min_order_qty := 1,
                   lead_time_days := 3, last_updated := "2024-12-01" }],
    selectedSupplier := "sysco",
    error := none }

end SupplierAPI

/-- C7: every failing `getProducts` call (non-OK response or thrown fetch
error) sets an explicit error and leaves the stored catalog entries and
the selected supplier unchanged; the stored entries change only through a
successful fetch. -/
theorem C7_getProducts_failure_preserves_catalog
    (st : CatalogState) (sid : String) (o : FetchOutcome) :
    ((o = .httpError ∨ o = .thrown) →
      (getProducts st sid o).products = st.products ∧
      (getProducts st sid o).selectedSupplier = st.selectedSupplier ∧
      (getProducts st sid o).error.isSome = true) ∧
    ((getProducts st sid o).products ≠ st.products →
      ∃ data, o = .ok data) := by
  constructor
  · rintro (rfl | rfl) <;> exact ⟨rfl, rfl, rfl⟩
  · intro hchanged
    cases o with
    | ok data => exact ⟨data, rfl⟩
    | httpError => exact absurd rfl hchanged
    | thrown => exact absurd rfl hchanged

/-- C7 witness: at a concrete loaded catalog state, a non-OK response
keeps the entries and selected supplier and sets an error. -/
theorem C7_witness :
    (getProducts loadedCatalogState "pfd" .httpError).products =
      loadedCatalogState.products ∧
    (getProducts loadedCatalogState "pfd" .httpError).selectedSupplier =
      loadedCatalogState.selectedSupplier ∧
    (getProducts loadedCatalogState "pfd" .httpError).error.isSome = true :=
  (C7_getProducts_failure_preserves_catalog loadedCatalogState "pfd"
      .httpError).1 (Or.inl rfl)

namespace SalesAuto

/-- Sales deduction rule, mirroring the `SalesDeductionRule` interface
in SalesAutoDeduction.tsx. -/
structure SalesDeductionRule where
  id : String
  name : String
  percentage : Int
  active : Bool
  description : String
deriving DecidableEq, Repr

/-- The per-rule function mapped by `handleToggleRule`: flip the active
flag when the id matches, otherwise keep the rule. -/
def toggleIfMatch (id : String) (rule : SalesDeductionRule) :
    SalesDeductionRule :=
  if rule.id == id then { rule with active := !rule.active } else rule

/-- `handleToggleRule` (lines 35-41): flip the active flag of every rule
whose id matches. -/
def handleToggleRule (id : String) (rules : List SalesDeductionRule) :
    List SalesDeductionRule :=
  rules.map (toggleIfMatch id)

/-- Toggling one rule twice restores it. -/
theorem toggleIfMatch_toggleIfMatch (id : String) (r : SalesDeductionRule) :
    toggleIfMatch id (toggleIfMatch id r) = r := by
  by_cases h : r.id == id
  · simp [toggleIfMatch, h]
  · simp only [Bool.not_eq_true] at h
    simp [toggleIfMatch, h]

/-- The `newRule` form state. -/
structure NewRule where
  name : String
  percentage : Int
  description : String
deriving DecidableEq, Repr

/-- `handleAddRule` (lines 43-55): when the entered name is non-empty and
the percentage is positive, append a new inactive rule carrying the form
fields (with a fresh id, modelled as the `newId` argument standing for
`Date.now().toString()`) and blank the form; otherwise do nothing. -/
def handleAddRule (nr : NewRule) (newId : String)
    (rules : List SalesDeductionRule) :
    List SalesDeductionRule × NewRule :=
  if nr.name ≠ "" ∧ 0 < nr.percentage then
    (rules ++ [{ id := newId, name := nr.name, percentage := nr.percentage,
                 active := false, description := nr.description }],
     { name := "", percentage := 0, description := "" })
  else
    (rules, nr)

/-- `handleDeleteRule` (lines 57-59): remove every rule whose id
matches. -/
def handleDeleteRule (id : String) (rules : List SalesDeductionRule) :
    List SalesDeductionRule :=
  rules.filter (fun rule => rule.id != id)

/-- The two rules the component starts with. -/
def initialRules : List SalesDeductionRule :=
  [{ id := "1", name := "Daily Sales Deduction", percentage := 5,
     active := true,
     description := "Automatically deduct 5 percent from daily sales for operational costs" },
   { id := "2", name := "Weekend Sales Deduction", percentage := 3,
     active := false,
     description := "Deduct 3 percent from weekend sales for additional processing" }]

end SalesAuto

open SalesAuto

/-- C8: toggling a rule id twice restores the rules list, and a single
toggle is a pointwise transformation that preserves id, name, percentage
and description of every rule, leaves non-matching rules entirely
unchanged, and flips the active flag of matching rules. -/
theorem C8_handleToggleRule_involution_and_frame
    (id : String) (rules : List SalesDeductionRule) :
    handleToggleRule id (handleToggleRule id rules) = rules ∧
    List.Forall₂ (fun r r' =>
        r'.id = r.id ∧ r'.name = r.name ∧ r'.percentage = r.percentage ∧
        r'.description = r.description ∧
        (r.id ≠ id → r' = r) ∧
        (r.id = id → r'.active = !r.active))
      rules (handleToggleRule id rules) := by
  constructor
  · have hcomp : toggleIfMatch id ∘ toggleIfMatch id = fun r => r :=
      funext fun r => toggleIfMatch_toggleIfMatch id r
    rw [handleToggleRule, handleToggleRule, List.map_map, hcomp, List.map_id']
  · induction rules with
    | nil => exact List.Forall₂.nil
    | cons r rs ih =>
      simp only [handleToggleRule, List.map_cons] at ih ⊢
      refine List.Forall₂.cons ?_ ih
      by_cases h : r.id = id
      · have hb : (r.id == id) = true := by simpa using h
        simp [toggleIfMatch, hb, h]
      · have hb : (r.id == id) = false := by simpa using h
        simp [toggleIfMatch, hb, h]

/-- C8 witness: toggling rule id 1 of the component's initial rules twice
restores the list, and a single toggle is framed as stated. -/
theorem C8_witness :
    handleToggleRule "1" (handleToggleRule "1" initialRules) =
      initialRules ∧
    List.Forall₂ (fun r r' =>
        r'.id = r.id ∧ r'.name = r.name ∧ r'.percentage = r.percentage ∧
        r'.description = r.description ∧
        (r.id ≠ "1" → r' = r) ∧
        (r.id = "1" → r'.active = !r.active))
      initialRules (handleToggleRule "1" initialRules) :=
  C8_handleToggleRule_involution_and_frame "1" initialRules

/-- C9: handleAddRule appends exactly one new inactive rule carrying the
entered name, percentage and description when the name is non-empty and
the percentage is positive, and leaves the rules list unchanged
otherwise. -/
theorem C9_handleAddRule_appends_one_or_nothing
    (nr : NewRule) (newId : String) (rules : List SalesDeductionRule) :
    (nr.name ≠ "" ∧ 0 < nr.percentage →
      (handleAddRule nr newId rules).1 =
        rules ++ [{ id := newId, name := nr.name,
                    percentage := nr.percentage, active := false,
                    description := nr.description }]) ∧
    (¬(nr.name ≠ "" ∧ 0 < nr.percentage) →
      (handleAddRule nr newId rules).1 = rules) := by
  constructor
  · intro h
    simp [handleAddRule, h]
  · intro h
    simp [handleAddRule, h]

/-- C9 witness: a valid form entry appends the new rule to the initial
rules, and an entry with percentage 0 changes nothing. -/
theorem C9_witness :
    (handleAddRule { name := "Evening", percentage := 2, description := "d" }
        "3" initialRules).1 =
      initialRules ++ [{ id := "3", name := "Evening", percentage := 2,
                         active := false, description := "d" }] ∧
    (handleAddRule { name := "Evening", percentage := 0, description := "d" }
        "3" initialRules).1 = initialRules :=
  ⟨(C9_handleAddRule_appends_one_or_nothing
        { name := "Evening", percentage := 2, description := "d" }
        "3" initialRules).1 (by refine ⟨?_, ?_⟩ <;> decide),
   (C9_handleAddRule_appends_one_or_nothing
        { name := "Evening", percentage := 0, description := "d" }
        "3" initialRules).2 (by intro h; exact absurd h.2 (by decide))⟩

namespace SetupWizard

/-- The `steps` array of the setup wizard: label and description of each
of the five steps. -/
def steps : List (String × String) :=
  [("Restaurant Profile", "Add restaurant details and owner information"),
   ("Menu Items", "Upload menu items with recipes and ingredients"),
   ("Ingredients", "Add ingredients with costs and stock levels"),
   ("Suppliers", "Set up supplier contacts and specialties"),
   ("Initial Stock", "Set initial stock levels and costs")]

/-- Effect of `handleNext` on `activeStep`: at the last step it calls
`completeSetup`, which does not change `activeStep`; otherwise it saves
the current step and increments. -/
def handleNext (activeStep : Int) : Int :=
  if activeStep = (steps.length : Int) - 1 then activeStep else activeStep + 1

/-- Effect of `handleBack` on `activeStep`: decrement. -/
def handleBack (activeStep : Int) : Int :=
  activeStep - 1

/-- Effect of `handleReset` on `activeStep`: back to the first step. -/
def handleReset : Int :=
  0

/-- The wizard actions a user can trigger. -/
inductive WizardEvent where
  | next
  | back
  | reset
deriving DecidableEq, Repr

/-- Whether an action is available: the Back button of the active step is
rendered with `disabled` exactly at step index 0. -/
def wizardEnabled (activeStep : Int) : WizardEvent → Prop
  | .next => True
  | .back => activeStep ≠ 0
  | .reset => True

/-- The `activeStep` transition of each action. -/
def wizardStep (activeStep : Int) : WizardEvent → Int
  | .next => handleNext activeStep
  | .back => handleBack activeStep
  | .reset => handleReset

/-- Step indices reachable from the initial `useState(0)` by enabled
actions. -/
inductive WizardReachable : Int → Prop
  | init : WizardReachable 0
  | step (s : Int) (e : WizardEvent) :
      WizardReachable s → wizardEnabled s e → WizardReachable (wizardStep s e)

end SetupWizard

open SetupWizard

/-- C10: in every reachable wizard state the active step index stays
between 0 and 4 (the five defined steps); advancing from the last step
does not increment the index (completion is triggered instead), and the
back action is unavailable on the first step. -/
theorem C10_wizard_activeStep_in_range (s : Int) (h : WizardReachable s) :
    (0 ≤ s ∧ s ≤ (SetupWizard.steps.length : Int) - 1) ∧
    handleNext ((SetupWizard.steps.length : Int) - 1) =
      (SetupWizard.steps.length : Int) - 1 ∧
    ¬ wizardEnabled 0 .back := by
  refine ⟨?_, by simp [handleNext], by simp [wizardEnabled]⟩
  induction h with
  | init => exact ⟨le_refl 0, by norm_num [SetupWizard.steps]⟩
  | step s e hs henabled ih =>
    obtain ⟨hlo, hhi⟩ := ih
    cases e with
    | next =>
      show 0 ≤ handleNext s ∧ handleNext s ≤ (SetupWizard.steps.length : Int) - 1
      unfold handleNext
      by_cases hlast : s = (SetupWizard.steps.length : Int) - 1
      · rw [if_pos hlast]
        exact ⟨hlo, hhi⟩
      · rw [if_neg hlast]
        constructor
        · omega
        · have : s < (SetupWizard.steps.length : Int) - 1 :=
            lt_of_le_of_ne hhi hlast
          omega
    | back =>
      show 0 ≤ handleBack s ∧ handleBack s ≤ (SetupWizard.steps.length : Int) - 1
      have hne : s ≠ 0 := henabled
      unfold handleBack
      constructor
      · omega
      · omega
    | reset =>
      show 0 ≤ handleReset ∧ handleReset ≤ (SetupWizard.steps.length : Int) - 1
      refine ⟨le_refl 0, ?_⟩
      norm_num [SetupWizard.steps, handleReset]

/-- C10 witness: the state reached by one Next click from the initial
state is in range, the last step does not increment, and back is
unavailable at step 0. -/
theorem C10_witness :
    (0 ≤ wizardStep 0 WizardEvent.next ∧
      wizardStep 0 WizardEvent.next ≤ (SetupWizard.steps.length : Int) - 1) ∧
    handleNext ((SetupWizard.steps.length : Int) - 1) =
      (SetupWizard.steps.length : Int) - 1 ∧
    ¬ wizardEnabled 0 .back :=
  C10_wizard_activeStep_in_range (wizardStep 0 WizardEvent.next)
    (WizardReachable.step 0 .next WizardReachable.init trivial)

namespace POSSync

/-- Modelled from the spec: the POS Sync Engine (§4.5) has no code under
src/.  A sync event carries a globally unique event id, a product
reference and a signed inventory delta. -/
structure SyncEvent where
  event_id : String
  productRef : String
  delta : Int
deriving DecidableEq, Repr

/-- Modelled from the spec: the inventory ledger (quantity per product
reference) together with the set of event ids already processed for one
tenant+stream. -/
structure SyncState where
  ledger : List (String × Int)
  processed : List String
deriving DecidableEq, Repr

/-- Apply a signed delta to the ledger at a product reference. -/
def applyDelta (ledger : List (String × Int)) (ref : String) (d : Int) :
    List (String × Int) :=
  match ledger with
  | [] => [(ref, d)]
  | (r, q) :: rest =>
      if r == ref then (r, q + d) :: rest else (r, q) :: applyDelta rest ref d

/-- Modelled from the spec (§4.5): process one sync event idempotently —
if the event id is already marked processed for this tenant+stream, it is
discarded without side effects; otherwise the inventory delta is applied
and the id is marked processed. -/
def applyEvent (st : SyncState) (e : SyncEvent) : SyncState :=
  if e.event_id ∈ st.processed then st
  else { ledger := applyDelta st.ledger e.productRef e.delta,
         processed := e.event_id :: st.processed }

/-- Deliver a stream of events in order. -/
def deliverAll (st : SyncState) (es : List SyncEvent) : SyncState :=
  es.foldl applyEvent st

/-- Processing the same event again has no further effect. -/
theorem applyEvent_applyEvent (st : SyncState) (e : SyncEvent) :
    applyEvent (applyEvent st e) e = applyEvent st e := by
  by_cases h : e.event_id ∈ st.processed
  · simp [applyEvent, h]
  · have hx : applyEvent st e =
        { ledger := applyDelta st.ledger e.productRef e.delta,
          processed := e.event_id :: st.processed } := by
      simp [applyEvent, h]
    rw [hx]
    simp [applyEvent]

/-- Once an event has been applied, any further stream of copies of it is
a no-op. -/
theorem deliverAll_replicate_applied (st : SyncState) (e : SyncEvent)
    (n : Nat) :
    deliverAll (applyEvent st e) (List.replicate n e) = applyEvent st e := by
  induction n with
  | zero => rfl
  | succ k ih =>
    rw [List.replicate_succ]
    show deliverAll (applyEvent (applyEvent st e) e) (List.replicate k e) =
      applyEvent st e
    rw [applyEvent_applyEvent]
    exact ih

/-- A sync state with one ledger row for milk at quantity 10 and nothing
processed yet, and the sale event E1 decrementing milk by 3. -/
def milkSyncStart : SyncState :=
  { ledger := [("milk", 10)], processed := [] }

/-- The sale event E1 of the spec scenario: milk, quantity minus 3. -/
def milkSale : SyncEvent :=
  { event_id := "E1", productRef := "milk", delta := -3 }

end POSSync

open POSSync

/-- C6: delivering the same sync event N times (N ≥ 1) leaves the
tenant+stream sync state — ledger and processed set — exactly as
delivering it once: the duplicate deliveries are discarded without side
effects. -/
theorem C6_sync_event_idempotent_apply (st : SyncState) (e : SyncEvent)
    (n : Nat) (h : 1 ≤ n) :
    deliverAll st (List.replicate n e) = deliverAll st [e] := by
  obtain ⟨k, rfl⟩ : ∃ k, n = k + 1 := ⟨n - 1, by omega⟩
  rw [List.replicate_succ]
  show deliverAll (applyEvent st e) (List.replicate k e) = deliverAll st [e]
  rw [deliverAll_replicate_applied]
  rfl

/-- C6 witness: the spec scenario — sale event E1 (milk, minus 3)
delivered twice leaves the ledger at 7, exactly as a single delivery. -/
theorem C6_witness :
    deliverAll milkSyncStart (List.replicate 2 milkSale) =
      deliverAll milkSyncStart [milkSale] ∧
    (deliverAll milkSyncStart [milkSale]).ledger = [("milk", 7)] :=
  ⟨C6_sync_event_idempotent_apply milkSyncStart milkSale 2 (by decide),
   by decide⟩

namespace SupplierAPI

/-- The SupplierAPIIntegrations component state restricted to the fields
the ordering and test-connection flows depend on: the loaded supplier
list, the supplier selected by a successful `getProducts`, the order
channel and supplier of the order dialog, and the order items (which gate
the Place Order button). -/
structure UIState where
  suppliers : List Supplier
  selectedSupplier : String
  orderType : OrderType
  orderSupplierId : String
  items : List OrderItem
deriving DecidableEq, Repr

/-- Initial component state: no supplier selected, channel `api`, no
items. -/
def initUIState (suppliers : List Supplier) : UIState :=
  { suppliers := suppliers, selectedSupplier := "", orderType := .api,
    orderSupplierId := "", items := [] }

/-- Externally visible requests issued by the component. -/
inductive UIAction where
  | connectionTested (supplierId : String)
  | apiOrderSubmitted (supplierId : String)
  | docOrderSubmitted (t : OrderType)
deriving DecidableEq, Repr

/-- User events of the flows under scrutiny.  `clickPlaceOrder` carries
whether the request succeeded (success resets the order form). -/
inductive UIEvent where
  | viewProductsOk (s : Supplier)
  | clickTest (s : Supplier)
  | clickProductsPlaceOrder
  | selectOrderType (t : OrderType)
  | selectApiSupplier (s : Supplier)
  | addOrderItem
  | clickPlaceOrder (ok : Bool)
deriving DecidableEq, Repr

/-- Whether an event can fire, from the rendering conditions: the Test
button is rendered only for suppliers of integration type api (line 517);
the Products-tab Place Order button only when a supplier is selected
(line 552); the order dialog's supplier dropdown lists only api suppliers
(line 842); the dialog's Place Order button is enabled only with a
non-empty item list (line 985). -/
def uiEnabled (st : UIState) : UIEvent → Prop
  | .viewProductsOk s => s ∈ st.suppliers
  | .clickTest s => s ∈ st.suppliers ∧ s.integration_type = "api"
  | .clickProductsPlaceOrder => st.selectedSupplier ≠ ""
  | .selectOrderType _ => True
  | .selectApiSupplier s => s ∈ st.suppliers ∧ s.integration_type = "api"
  | .addOrderItem => True
  | .clickPlaceOrder _ => st.items ≠ []

/-- The fresh line item appended by `addOrderItem` (lines 378-390). -/
def defaultNewItem : OrderItem :=
  { product_id := "", name := "", quantity := 1, unit := "kg",
    unit_price := 0, notes := "" }

/-- State transition of each event.  A successful `getProducts` stores
the supplier id (line 240); the Products-tab Place Order button sets the
channel to api and pre-fills the selected supplier (lines 556-559); a
successful order placement resets the order form (`resetOrderData`). -/
def uiStepState (st : UIState) : UIEvent → UIState
  | .viewProductsOk s => { st with selectedSupplier := s.id }
  | .clickTest _ => st
  | .clickProductsPlaceOrder =>
      { st with orderType := .api, orderSupplierId := st.selectedSupplier }
  | .selectOrderType t => { st with orderType := t }
  | .selectApiSupplier s => { st with orderSupplierId := s.id }
  | .addOrderItem => { st with items := st.items ++ [defaultNewItem] }
  | .clickPlaceOrder ok =>
      if ok then { st with orderSupplierId := "", items := [] } else st

/-- The outbound requests each event issues: the Test button calls
`testConnection` for its supplier; Place Order posts through the current
channel, an api-channel order carrying `orderData.supplier_id`. -/
def uiActions (st : UIState) : UIEvent → List UIAction
  | .clickTest s => [.connectionTested s.id]
  | .clickPlaceOrder _ =>
      match st.orderType with
      | .api => [.apiOrderSubmitted st.orderSupplierId]
      | .pdf => [.docOrderSubmitted .pdf]
      | .email => [.docOrderSubmitted .email]
  | _ => []

/-- Executions of the component: reachable state together with the list
of requests issued so far. -/
inductive UITrace : UIState → List UIAction → Prop
  | init (suppliers : List Supplier) : UITrace (initUIState suppliers) []
  | step {st : UIState} {tr : List UIAction} (e : UIEvent) :
      UITrace st tr → uiEnabled st e →
      UITrace (uiStepState st e) (tr ++ uiActions st e)

/-- No event changes the loaded supplier list. -/
theorem uiStepState_suppliers (st : UIState) (e : UIEvent) :
    (uiStepState st e).suppliers = st.suppliers := by
  cases e with
  | clickPlaceOrder ok => cases ok <;> rfl
  | _ => rfl

/-- A supplier with integration type manual. -/
def manualSup : Supplier :=
  { id := "handsfarm", name := "Hands Farm", description := "",
    integration_type := "manual", features := [], categories := [],
    minimum_order := 0, delivery_lead_time := 5,
    required_config := [] }

/-- The state reached with only the manual supplier loaded, after viewing
its products, opening the Products-tab Place Order, adding one item and
placing the order. -/
def manualOrderFinal : UIState :=
  uiStepState
    (uiStepState
      (uiStepState
        (uiStepState (initUIState [manualSup]) (.viewProductsOk manualSup))
        .clickProductsPlaceOrder)
      .addOrderItem)
    (.clickPlaceOrder true)

end SupplierAPI

/-- C4 counterexample: with the supplier registry holding only the manual
supplier handsfarm, a reachable execution submits an api-channel order
for handsfarm — the Products-tab Place Order button sets channel api for
whichever supplier's products are loaded, regardless of integration
type. -/
theorem C4_counterexample_manual_supplier_api_order :
    UITrace manualOrderFinal
      [UIAction.apiOrderSubmitted "handsfarm"] ∧
    manualOrderFinal.suppliers = [manualSup] ∧
    manualSup.id = "handsfarm" ∧
    manualSup.integration_type = "manual" := by
  refine ⟨?_, rfl, rfl, rfl⟩
  have h0 := UITrace.init [manualSup]
  have h1 := UITrace.step (.viewProductsOk manualSup) h0
    (List.mem_singleton.mpr rfl)
  have h2 := UITrace.step .clickProductsPlaceOrder h1
    (show ("handsfarm" : String) ≠ "" by decide)
  have h3 := UITrace.step .addOrderItem h2 trivial
  have h4 := UITrace.step (.clickPlaceOrder true) h3
    (List.cons_ne_nil _ _)
  exact h4

/-- C4 (amended): a connection test is only ever issued for a supplier of
integration type api — in every reachable execution, every
connectionTested request names a supplier of the registry whose
integration type is api.  (The api order channel carries no such
guarantee: see the counterexample.) -/
theorem C4_testConnection_only_api_suppliers
    (st : UIState) (tr : List UIAction) (h : UITrace st tr)
    (sid : String) (hmem : UIAction.connectionTested sid ∈ tr) :
    ∃ s ∈ st.suppliers, s.id = sid ∧ s.integration_type = "api" := by
  induction h with
  | init suppliers => exact absurd hmem (List.not_mem_nil _)
  | step e htr henabled ih =>
    rename_i st' tr'
    rw [uiStepState_suppliers]
    rcases List.mem_append.mp hmem with hold | hnew
    · exact ih hold
    · cases e with
      | clickTest s =>
        have hsid : sid = s.id := by
          have := List.mem_singleton.mp hnew
          injection this
        exact ⟨s, henabled.1, hsid.symm, henabled.2⟩
      | clickPlaceOrder ok =>
        exfalso
        cases hot : st'.orderType <;>
          · rw [show uiActions st' (.clickPlaceOrder ok) =
                uiActions st' (.clickPlaceOrder ok) from rfl] at hnew
            simp [uiActions, hot] at hnew
      | viewProductsOk s => exact absurd hnew (List.not_mem_nil _)
      | clickProductsPlaceOrder => exact absurd hnew (List.not_mem_nil _)
      | selectOrderType t => exact absurd hnew (List.not_mem_nil _)
      | selectApiSupplier s => exact absurd hnew (List.not_mem_nil _)
      | addOrderItem => exact absurd hnew (List.not_mem_nil _)

/-- C4 witness: clicking Test on the api supplier sysco issues a
connection test, and the theorem recovers that sysco is an api supplier
of the registry. -/
theorem C4_witness :
    ∃ s ∈ (uiStepState (initUIState [minOrderSupplier])
        (.clickTest minOrderSupplier)).suppliers,
      s.id = "sysco" ∧ s.integration_type = "api" :=
  C4_testConnection_only_api_suppliers _ _
    (UITrace.step (.clickTest minOrderSupplier)
      (UITrace.init [minOrderSupplier])
      ⟨List.mem_singleton.mpr rfl, rfl⟩)
    "sysco" (List.mem_singleton.mpr rfl)
